import Mathlib

/-!
# Verification of `diffuzers/x2image.py`

A shallow embedding of the `X2Image` Streamlit front-end over the
`diffusers` library (file `src/diffuzers/x2image.py`), together with
theorems checking the natural-language specification against it.

Modelling conventions:

* The external `diffusers` pipeline objects are modelled only through the
  parts this layer reads and writes: a pipeline carries its `scheduler`
  (class name plus an opaque configuration token).  The actual tensor
  computation is outside the program under verification; each wrapped
  pipeline call is modelled by the record of arguments handed to it.
* Python exceptions are modelled with an explicit error type; stateful
  methods return the `Except` outcome *together with* the state at the
  moment control leaves the method, so that "no mutation happened before
  the raise" is expressible.
* Python floats appearing in the configuration (e.g. `guidance_scale`)
  are modelled by the exact rational value they denote; `json.dumps`
  followed by `json.loads` restores a Python float exactly, which the
  model reflects by keeping the rational unchanged.
* `json.dumps` / `json.loads` are modelled at the JSON-value level:
  `dumps` maps a Python value to the JSON value whose textual rendering
  the library would emit (tuples and lists both become JSON arrays),
  and `loads` maps a JSON value back to the Python value the library
  builds (arrays become lists).
-/

/-- Python values that flow through the metadata dictionaries of
`x2image.py`: strings, ints, floats (as exact rationals), lists, tuples
and string-keyed dicts (association lists in insertion order).
`tuple` and `list` are distinct, as in Python, where `(1, 2) == [1, 2]`
is `False`. -/
inductive PyVal where
  | str (s : String)
  | int (n : Int)
  | float (q : ℚ)
  | list (xs : List PyVal)
  | tuple (xs : List PyVal)
  | dict (kvs : List (String × PyVal))
deriving Repr

/-- JSON values, the target of `json.dumps`: JSON has arrays but no
tuples. -/
inductive JsonVal where
  | str (s : String)
  | int (n : Int)
  | float (q : ℚ)
  | arr (xs : List JsonVal)
  | obj (kvs : List (String × JsonVal))
deriving Repr

mutual

/-- Model of `json.dumps` (at the JSON-value level): Python lists and
tuples both serialize to JSON arrays; dict entries keep insertion
order. -/
def dumps : PyVal → JsonVal
  | .str s => .str s
  | .int n => .int n
  | .float q => .float q
  | .list xs => .arr (dumpsList xs)
  | .tuple xs => .arr (dumpsList xs)
  | .dict kvs => .obj (dumpsDict kvs)

/-- `json.dumps` on the elements of a Python sequence. -/
def dumpsList : List PyVal → List JsonVal
  | [] => []
  | x :: xs => dumps x :: dumpsList xs

/-- `json.dumps` on the entries of a Python dict. -/
def dumpsDict : List (String × PyVal) → List (String × JsonVal)
  | [] => []
  | (k, v) :: kvs => (k, dumps v) :: dumpsDict kvs

end

mutual

/-- Model of `json.loads` (at the JSON-value level): JSON arrays become
Python lists, objects become dicts. -/
def loads : JsonVal → PyVal
  | .str s => .str s
  | .int n => .int n
  | .float q => .float q
  | .arr xs => .list (loadsList xs)
  | .obj kvs => .dict (loadsDict kvs)

/-- `json.loads` on the elements of a JSON array. -/
def loadsList : List JsonVal → List PyVal
  | [] => []
  | x :: xs => loads x :: loadsList xs

/-- `json.loads` on the entries of a JSON object. -/
def loadsDict : List (String × JsonVal) → List (String × PyVal)
  | [] => []
  | (k, v) :: kvs => (k, loads v) :: loadsDict kvs

end

/-- Python exceptions raised (or re-surfaced) by this layer. -/
inductive PyError where
  | valueError (msg : String)
  | keyError (key : String)
  | typeError (msg : String)
  | attributeError (msg : String)
deriving Repr, DecidableEq

/-- A scheduler instance: its class (identified by the class `__name__`,
which is also the key used in `compatible_schedulers`) and the opaque
configuration it was instantiated from. `SomeClass.from_config(cfg)` is
modelled as building `⟨className, cfg⟩`. -/
structure Scheduler where
  cls : String
  config : String
deriving Repr, DecidableEq

/-- The slice of a `diffusers` pipeline object that `x2image.py` reads or
writes after construction: its current scheduler. -/
structure Pipeline where
  scheduler : Scheduler
deriving Repr, DecidableEq

/-- The state of a fully constructed `X2Image` object: the fields
`__post_init__` assigns that the later methods use. -/
structure X2ImageState where
  device : Option String
  text2img_pipeline : Pipeline
  img2img_pipeline : Pipeline
  compatible_schedulers : List (String × String)
  output_path : Option String
deriving Repr, DecidableEq

/-- Python dict subscript `d[k]`: the value, or `KeyError` when the key
is absent.  `compatible_schedulers` maps a scheduler class name to the
class itself (modelled by that same name, as `__post_init__` builds the
dict from `scheduler.__name__`). -/
def dictGetItem (d : List (String × String)) (k : String) : Except PyError String :=
  match d.lookup k with
  | some v => .ok v
  | none => .error (.keyError k)

/-- `X2Image._set_scheduler(pipeline_name, scheduler_name)`:
read the named pipeline's `scheduler.config` (rejecting unknown pipeline
names with `ValueError`), instantiate the class found under
`scheduler_name` in `compatible_schedulers` from that config, and store
the new scheduler on the named pipeline.  The returned state is the
object's state when control leaves the method, also on an exception. -/
def setScheduler (s : X2ImageState) (pipeline_name scheduler_name : String) :
    Except PyError Unit × X2ImageState :=
  let scheduler_config? : Except PyError String :=
    if pipeline_name == "text2img" then .ok s.text2img_pipeline.scheduler.config
    else if pipeline_name == "img2img" then .ok s.img2img_pipeline.scheduler.config
    else .error (.valueError s!"Pipeline {pipeline_name} not supported")
  match scheduler_config? with
  | .error e => (.error e, s)
  | .ok scheduler_config =>
    match dictGetItem s.compatible_schedulers scheduler_name with
    | .error e => (.error e, s)
    | .ok cls =>
      let scheduler : Scheduler := { cls := cls, config := scheduler_config }
      if pipeline_name == "text2img" then
        (.ok (), { s with text2img_pipeline := { s.text2img_pipeline with scheduler := scheduler } })
      else if pipeline_name == "img2img" then
        (.ok (), { s with img2img_pipeline := { s.img2img_pipeline with scheduler := scheduler } })
      else
        (.ok (), s)

/-- A torch random generator as this layer produces it: either the
global generator returned by `torch.manual_seed(seed)` (the `mps`
branch) or a fresh `torch.Generator(device=...).manual_seed(seed)`. -/
inductive Generator where
  | globalGen (seed : Int)
  | deviceGen (device : Option String) (seed : Int)
deriving Repr, DecidableEq

/-- The seed a generator was seeded with. -/
def Generator.seed : Generator → Int
  | .globalGen s => s
  | .deviceGen _ s => s

/-- Python `int(...)` applied to a value that is already an int. -/
def pyInt (n : Int) : Int := n

/-- `X2Image._pregen(pipeline_name, scheduler, num_images, seed)`:
set the scheduler, then build the seeded generator (`torch.manual_seed`
on `mps`, a device generator otherwise; on `mps` `num_images` is forced
to 1), and return `(generator, int(num_images))`. -/
def pregen (s : X2ImageState) (pipeline_name scheduler : String)
    (num_images seed : Int) :
    Except PyError (Generator × Int) × X2ImageState :=
  match setScheduler s pipeline_name scheduler with
  | (.error e, s1) => (.error e, s1)
  | (.ok _, s1) =>
    let gn : Generator × Int :=
      if s1.device == some "mps" then (.globalGen seed, 1)
      else (.deviceGen s1.device seed, num_images)
    (.ok (gn.1, pyInt gn.2), s1)

/-- The PNG metadata object built in `_postgen`: the sequence of
`add_text(key, value)` chunks, the value being the serialized JSON
(modelled by its JSON value). -/
structure PngInfoModel where
  texts : List (String × JsonVal)
deriving Repr

/-- `X2Image._postgen(metadata, output_images, pipeline_name)` restricted
to its observable metadata effect: `metadata = json.dumps(metadata)`,
then a fresh `PngInfo` receives `add_text(pipeline_name, metadata)`.
(The cache clearing, garbage collection and image saving are external
side effects with no influence on the returned metadata.) -/
def postgen (metadata : PyVal) (pipeline_name : String) : PngInfoModel :=
  let metadataJson := dumps metadata
  let start : PngInfoModel := { texts := [] }
  { start with texts := start.texts ++ [(pipeline_name, metadataJson)] }

/-- Lookup of a text chunk in a `PngInfo`. -/
def pngLookup (p : PngInfoModel) (k : String) : Option JsonVal :=
  p.texts.lookup k

/-- The argument record handed to the wrapped
`self.text2img_pipeline(...)` call in `text2img_generate`.  The call
itself (tensor inference) is external; verifying this layer means
verifying what it puts into this record. -/
structure Text2ImgCall where
  prompt : String
  negative_prompt : String
  width : Int
  height : Int
  num_inference_steps : Int
  guidance_scale : ℚ
  num_images_per_prompt : Int
  generator : Generator
deriving Repr, DecidableEq

/-- The argument record handed to the wrapped
`self.img2img_pipeline(...)` call in `img2img_generate`.  The input
image is external data, modelled by an opaque token. -/
structure Img2ImgCall where
  prompt : String
  image : String
  strength : ℚ
  negative_prompt : String
  num_inference_steps : Int
  guidance_scale : ℚ
  num_images_per_prompt : Int
  generator : Generator
deriving Repr, DecidableEq

/-- `X2Image.text2img_generate(prompt, negative_prompt, scheduler,
image_size, num_images, guidance_scale, steps, seed)`:
`_pregen` on the `text2img` pipeline, the wrapped pipeline call
(returned as its argument record), the metadata dict built from the
arguments (`image_size` is the Python tuple `(height, width)`), then
`_postgen`.  On success the result carries the pipeline call record,
the metadata dict, and the returned `PngInfo`. -/
def text2imgGenerate (s : X2ImageState)
    (prompt negative_prompt scheduler : String) (image_size : Int × Int)
    (num_images : Int) (guidance_scale : ℚ) (steps seed : Int) :
    Except PyError (Text2ImgCall × PyVal × PngInfoModel) × X2ImageState :=
  match pregen s "text2img" scheduler num_images seed with
  | (.error e, s1) => (.error e, s1)
  | (.ok (generator, num_images), s1) =>
    let call : Text2ImgCall :=
      { prompt := prompt
        negative_prompt := negative_prompt
        width := image_size.2
        height := image_size.1
        num_inference_steps := steps
        guidance_scale := guidance_scale
        num_images_per_prompt := num_images
        generator := generator }
    let metadata : PyVal := .dict
      [ ("prompt", .str prompt)
      , ("negative_prompt", .str negative_prompt)
      , ("scheduler", .str scheduler)
      , ("image_size", .tuple [.int image_size.1, .int image_size.2])
      , ("num_images", .int num_images)
      , ("guidance_scale", .float guidance_scale)
      , ("steps", .int steps)
      , ("seed", .int seed) ]
    (.ok (call, metadata, postgen metadata "text2img"), s1)

/-- `X2Image.img2img_generate(prompt, image, strength, negative_prompt,
scheduler, num_images, guidance_scale, steps, seed)`: `_pregen` on the
`img2img` pipeline, the wrapped pipeline call (returned as its argument
record), the metadata dict built from the arguments (no `image_size`
entry), then `_postgen`. -/
def img2imgGenerate (s : X2ImageState)
    (prompt : String) (image : String) (strength : ℚ)
    (negative_prompt scheduler : String) (num_images : Int)
    (guidance_scale : ℚ) (steps seed : Int) :
    Except PyError (Img2ImgCall × PyVal × PngInfoModel) × X2ImageState :=
  match pregen s "img2img" scheduler num_images seed with
  | (.error e, s1) => (.error e, s1)
  | (.ok (generator, num_images), s1) =>
    let call : Img2ImgCall :=
      { prompt := prompt
        image := image
        strength := strength
        negative_prompt := negative_prompt
        num_inference_steps := steps
        guidance_scale := guidance_scale
        num_images_per_prompt := num_images
        generator := generator }
    let metadata : PyVal := .dict
      [ ("prompt", .str prompt)
      , ("negative_prompt", .str negative_prompt)
      , ("scheduler", .str scheduler)
      , ("num_images", .int num_images)
      , ("guidance_scale", .float guidance_scale)
      , ("steps", .int steps)
      , ("seed", .int seed) ]
    (.ok (call, metadata, postgen metadata "img2img"), s1)

/-- The class of the pipeline object `DiffusionPipeline.from_pretrained`
returned, as `__post_init__`'s `isinstance` tests see it. -/
inductive LoadedPipelineKind where
  | stableDiffusion
  | altDiffusion
  | other
deriving Repr, DecidableEq

/-- The slice of the freshly loaded text2img pipeline that
`__post_init__` reads: its class, its scheduler, and the class names in
`scheduler.compatibles`. -/
structure LoadedPipeline where
  kind : LoadedPipelineKind
  scheduler : Scheduler
  compatibles : List String
deriving Repr, DecidableEq

/-- `X2Image.__post_init__`, run on a freshly loaded pipeline, with the
dataclass fields `device`, `embeddings_url`, `token_identifier`,
`output_path` (each `Optional[str]`).  Returns the log messages emitted
up to the point control leaves the method, and either the constructed
state or the Python exception that escaped.  Modelling notes, checked
against the whole source file:

* in the unsupported branch `self.img2img_pipeline` is `None`, so the
  unconditional `self.img2img_pipeline.to(self.device)` raises
  `AttributeError`;
* `len(x)` on a field still holding `None` raises `TypeError`, and the
  `and` in the embeddings guard short-circuits, so
  `len(self.token_identifier)` is only evaluated when
  `len(self.embeddings_url) > 0`;
* no attribute named `pipeline` is ever assigned anywhere in the class,
  so evaluating `self.pipeline.text_encoder` (an argument of the
  `load_embed` call) raises `AttributeError` before `load_embed` runs;
* the `mps` warm-up generations are external pipeline calls with no
  effect on the constructed state. -/
def postInit (device : Option String) (loaded : LoadedPipeline)
    (embeddings_url token_identifier output_path : Option String) :
    List String × Except PyError X2ImageState :=
  let text2img_pipeline : Pipeline := { scheduler := loaded.scheduler }
  let (log, img2img_pipeline?) :
      List String × Option Pipeline :=
    match loaded.kind with
    | .stableDiffusion => ([], some { scheduler := loaded.scheduler })
    | .altDiffusion => ([], some { scheduler := loaded.scheduler })
    | .other => (["Model type not supported, img2img pipeline not created"], none)
  match img2img_pipeline? with
  | none =>
    (log, .error (.attributeError "'NoneType' object has no attribute 'to'"))
  | some img2img_pipeline =>
    let compatible_schedulers : List (String × String) :=
      loaded.compatibles.map fun c => (c, c)
    let done : X2ImageState :=
      { device := device
        text2img_pipeline := text2img_pipeline
        img2img_pipeline := img2img_pipeline
        compatible_schedulers := compatible_schedulers
        output_path := output_path }
    match embeddings_url with
    | none => (log, .error (.typeError "object of type 'NoneType' has no len()"))
    | some url =>
      if url.length > 0 then
        match token_identifier with
        | none => (log, .error (.typeError "object of type 'NoneType' has no len()"))
        | some tok =>
          if tok.length > 0 then
            (log, .error (.attributeError "'X2Image' object has no attribute 'pipeline'"))
          else
            (log, .ok done)
      else
        (log, .ok done)

/-- `tokenizer.add_tokens(token)` as this layer relies on it: returns
the number of tokens actually added, which is `0` when the tokenizer
already contains the token and `1` otherwise (in which case the token
is appended to the vocabulary). -/
def addTokens (tokenizer : List String) (token : String) : List String × Nat :=
  if token ∈ tokenizer then (tokenizer, 0)
  else (tokenizer ++ [token], 1)

/-- Python slice `token[:-1]`: the string without its last character. -/
def pyDropLast (s : String) : String := s.dropRight 1

/-- The warning logged by `load_embed` when a token is already
present. -/
def alreadyContainsMsg (token : String) : String :=
  s!"The tokenizer already contains the token {token}."

/-- The `while num_added_tokens == 0` loop of `load_embed`: log the
warning for the current token, rename it to `token[:-1] + "-i>"`, try
to add the renamed token, and repeat with `i + 1`.  The loop has no
bound in the source; `fuel` bounds the model's unrolling, `none`
meaning the loop was still running when the fuel ran out. -/
def loadEmbedLoop :
    Nat → List String → String → Nat → Nat → List String →
    Option (List String × List String × String)
  | _, tokenizer, token, _ + 1, _, warnings =>
    some (warnings, tokenizer, token)
  | 0, _, _, 0, _, _ => none
  | fuel + 1, tokenizer, token, 0, i, warnings =>
    let warnings2 := warnings ++ [alreadyContainsMsg token]
    let token2 := pyDropLast token ++ "-" ++ toString i ++ ">"
    let added := addTokens tokenizer token2
    loadEmbedLoop fuel added.1 token2 added.2 (i + 1) warnings2

/-- `load_embed(learned_embeds_path, text_encoder, tokenizer, token)`
restricted to its token bookkeeping (the embedding tensors live in the
external library): pick the token (the passed one, or the trained token
read from the file when `None` was passed), add it to the tokenizer,
run the renaming loop while the add reports `0` tokens added, and
return the warnings logged, the final tokenizer and the token finally
returned. -/
def loadEmbed (fuel : Nat) (tokenizer : List String)
    (token? : Option String) (trained_token : String) :
    Option (List String × List String × String) :=
  let token := match token? with
    | some t => t
    | none => trained_token
  let added := addTokens tokenizer token
  loadEmbedLoop fuel added.1 token added.2 1 []

/-- The name moved to the front of the scheduler menu in `app()`. -/
def eulerAName : String := "EulerAncestralDiscreteScheduler"

/-- The scheduler menu built at the top of `X2Image.app()`:
`list(self.compatible_schedulers.keys())`, and when
`EulerAncestralDiscreteScheduler` is present,
`insert(0, pop(index(...)))` moves it to the front. -/
def appAvailableSchedulers (s : X2ImageState) : List String :=
  let available := s.compatible_schedulers.map Prod.fst
  if eulerAName ∈ available then
    let i := available.indexOf eulerAName
    available.getD i "" :: available.eraseIdx i
  else available

/-! ## Shared concrete data for witnesses and counterexamples -/

/-- A concrete scheduler instance. -/
def demoSched : Scheduler := { cls := "PNDMScheduler", config := "cfg0" }

/-- A concrete constructed `X2Image` state (CPU device). -/
def demoState : X2ImageState :=
  { device := none
    text2img_pipeline := { scheduler := demoSched }
    img2img_pipeline := { scheduler := demoSched }
    compatible_schedulers :=
      [("PNDMScheduler", "PNDMScheduler"), ("DDIMScheduler", "DDIMScheduler")]
    output_path := none }

/-- A concrete freshly loaded pipeline of a supported class. -/
def demoLoaded : LoadedPipeline :=
  { kind := .stableDiffusion
    scheduler := demoSched
    compatibles := ["PNDMScheduler", "DDIMScheduler"] }

/-! ## Helper lemmas -/

/-- `_set_scheduler` on the `text2img` pipeline with a known scheduler
key: the new scheduler is the looked-up class instantiated from the
`text2img` pipeline's current config. -/
theorem setScheduler_text2img_ok (s : X2ImageState) (sched cls : String)
    (h : s.compatible_schedulers.lookup sched = some cls) :
    setScheduler s "text2img" sched =
      (.ok (), { s with text2img_pipeline :=
        { scheduler := { cls := cls, config := s.text2img_pipeline.scheduler.config } } }) := by
  simp [setScheduler, dictGetItem, h]

/-- `_set_scheduler` on the `img2img` pipeline with a known scheduler
key. -/
theorem setScheduler_img2img_ok (s : X2ImageState) (sched cls : String)
    (h : s.compatible_schedulers.lookup sched = some cls) :
    setScheduler s "img2img" sched =
      (.ok (), { s with img2img_pipeline :=
        { scheduler := { cls := cls, config := s.img2img_pipeline.scheduler.config } } }) := by
  simp [setScheduler, dictGetItem, h]

/-- `_set_scheduler` never changes the `device` field. -/
theorem setScheduler_device (s : X2ImageState) (pn sched : String) :
    ((setScheduler s pn sched).2).device = s.device := by
  unfold setScheduler
  dsimp only
  split
  · rfl
  · split
    · rfl
    · split
      · rfl
      · split
        · rfl
        · rfl

/-- Inversion of a successful `_set_scheduler`: the scheduler name was
a key of `compatible_schedulers` and the pipeline name was one of the
two supported ones. -/
theorem setScheduler_ok_inv (s s1 : X2ImageState) (pn sched : String) (u : Unit)
    (h : setScheduler s pn sched = (.ok u, s1)) :
    ∃ cls, s.compatible_schedulers.lookup sched = some cls ∧
      ((pn = "text2img" ∧ s1 = { s with text2img_pipeline :=
          { scheduler := { cls := cls, config := s.text2img_pipeline.scheduler.config } } }) ∨
       (pn = "img2img" ∧ s1 = { s with img2img_pipeline :=
          { scheduler := { cls := cls, config := s.img2img_pipeline.scheduler.config } } })) := by
  by_cases h1 : pn = "text2img"
  · subst h1
    cases hl : s.compatible_schedulers.lookup sched with
    | none => simp [setScheduler, dictGetItem, hl] at h
    | some cls =>
      rw [setScheduler_text2img_ok s sched cls hl] at h
      exact ⟨cls, rfl, .inl ⟨rfl, (Prod.mk.injEq _ _ _ _ ▸ h).2.symm⟩⟩
  · by_cases h2 : pn = "img2img"
    · subst h2
      cases hl : s.compatible_schedulers.lookup sched with
      | none => simp [setScheduler, dictGetItem, hl] at h
      | some cls =>
        rw [setScheduler_img2img_ok s sched cls hl] at h
        exact ⟨cls, rfl, .inr ⟨rfl, (Prod.mk.injEq _ _ _ _ ▸ h).2.symm⟩⟩
    · simp [setScheduler, h1, h2] at h

/-- Inversion of a successful `_pregen`: the scheduler was set
successfully, and the generator and image count are determined by the
pre-state's device and the given seed. -/
theorem pregen_ok_inv (s s1 : X2ImageState) (pn sched : String)
    (n seed : Int) (g : Generator) (m : Int)
    (h : pregen s pn sched n seed = (.ok (g, m), s1)) :
    setScheduler s pn sched = (.ok (), s1) ∧
    g = (if s.device = some "mps" then .globalGen seed else .deviceGen s.device seed) ∧
    m = (if s.device = some "mps" then 1 else pyInt n) := by
  unfold pregen at h
  cases hss : setScheduler s pn sched with
  | mk r s2 =>
    cases r with
    | error e => rw [hss] at h; exact absurd (Prod.mk.injEq _ _ _ _ ▸ h).1 (by simp)
    | ok u =>
      rw [hss] at h
      have hd : s2.device = s.device := by
        have := setScheduler_device s pn sched
        rw [hss] at this
        exact this
      cases u
      simp only [Prod.mk.injEq, Except.ok.injEq] at h
      obtain ⟨⟨hg, hm⟩, hs⟩ := h
      subst hs
      refine ⟨rfl, ?_, ?_⟩
      · rw [← hg]
        by_cases hmps : s.device = some "mps" <;>
          simp [hd, hmps]
      · rw [← hm]
        by_cases hmps : s.device = some "mps" <;>
          simp [hd, hmps, pyInt]

/-- The state reached from `demoState` by installing `DDIMScheduler` on
the `text2img` pipeline. -/
def demoStateDDIM : X2ImageState :=
  { demoState with text2img_pipeline :=
      { scheduler := { cls := "DDIMScheduler", config := "cfg0" } } }

/-! ## Claim theorems -/

/-- C2.  Scheduler substitution: for a scheduler name that is a key of
`compatible_schedulers`, `_set_scheduler` replaces the named pipeline's
scheduler by the looked-up class instantiated from that same pipeline's
current scheduler configuration, and leaves the other pipeline
untouched. -/
theorem scheduler_substitution (s : X2ImageState) (sched cls : String)
    (h : s.compatible_schedulers.lookup sched = some cls) :
    (setScheduler s "text2img" sched =
      (.ok (), { s with text2img_pipeline :=
        { scheduler := { cls := cls, config := s.text2img_pipeline.scheduler.config } } }) ∧
     ((setScheduler s "text2img" sched).2).img2img_pipeline = s.img2img_pipeline) ∧
    (setScheduler s "img2img" sched =
      (.ok (), { s with img2img_pipeline :=
        { scheduler := { cls := cls, config := s.img2img_pipeline.scheduler.config } } }) ∧
     ((setScheduler s "img2img" sched).2).text2img_pipeline = s.text2img_pipeline) := by
  refine ⟨⟨setScheduler_text2img_ok s sched cls h, ?_⟩,
          setScheduler_img2img_ok s sched cls h, ?_⟩
  · rw [setScheduler_text2img_ok s sched cls h]
  · rw [setScheduler_img2img_ok s sched cls h]

/-- Witness for C2 at a concrete state and scheduler key. -/
theorem scheduler_substitution_witness :
    demoState.compatible_schedulers.lookup "DDIMScheduler" = some "DDIMScheduler" ∧
    (setScheduler demoState "text2img" "DDIMScheduler" =
      (.ok (), { demoState with text2img_pipeline :=
        { scheduler := { cls := "DDIMScheduler",
                         config := demoState.text2img_pipeline.scheduler.config } } }) ∧
     ((setScheduler demoState "text2img" "DDIMScheduler").2).img2img_pipeline =
        demoState.img2img_pipeline) :=
  ⟨by decide, (scheduler_substitution demoState "DDIMScheduler" "DDIMScheduler" (by decide)).1⟩

/-- C7.  `_set_scheduler` with an unknown pipeline name raises
`ValueError` and leaves the state — in particular both schedulers —
exactly as it was. -/
theorem set_scheduler_rejects_unknown (s : X2ImageState) (pn sched : String)
    (h1 : pn ≠ "text2img") (h2 : pn ≠ "img2img") :
    setScheduler s pn sched = (.error (.valueError s!"Pipeline {pn} not supported"), s) ∧
    ((setScheduler s pn sched).2).text2img_pipeline.scheduler = s.text2img_pipeline.scheduler ∧
    ((setScheduler s pn sched).2).img2img_pipeline.scheduler = s.img2img_pipeline.scheduler := by
  have He : setScheduler s pn sched =
      (.error (.valueError s!"Pipeline {pn} not supported"), s) := by
    simp [setScheduler, h1, h2]
  exact ⟨He, by rw [He], by rw [He]⟩

/-- Witness for C7 at a concrete state and pipeline name. -/
theorem set_scheduler_rejects_unknown_witness :
    setScheduler demoState "inpainting" "DDIMScheduler" =
      (.error (.valueError "Pipeline inpainting not supported"), demoState) ∧
    ((setScheduler demoState "inpainting" "DDIMScheduler").2).text2img_pipeline.scheduler =
      demoState.text2img_pipeline.scheduler ∧
    ((setScheduler demoState "inpainting" "DDIMScheduler").2).img2img_pipeline.scheduler =
      demoState.img2img_pipeline.scheduler :=
  set_scheduler_rejects_unknown demoState "inpainting" "DDIMScheduler"
    (by decide) (by decide)

/-- C3.  `_pregen` returns a generator deterministically seeded with
exactly the given seed: on `mps` the global `torch.manual_seed`
generator and `num_images = 1`, otherwise a device generator and
`num_images = int(num_images)`; two successful calls on states with
equal device and the same seed yield identical generators. -/
theorem pregen_seeded_generator (s s' : X2ImageState) (pn pn' sched sched' : String)
    (n n' seed : Int) (g g' : Generator) (m m' : Int) (t t' : X2ImageState)
    (h : pregen s pn sched n seed = (.ok (g, m), t))
    (h' : pregen s' pn' sched' n' seed = (.ok (g', m'), t')) :
    g.seed = seed ∧
    (s.device = some "mps" → g = .globalGen seed ∧ m = 1) ∧
    (s.device ≠ some "mps" → g = .deviceGen s.device seed ∧ m = pyInt n) ∧
    (s.device = s'.device → g = g') := by
  obtain ⟨-, hg, hm⟩ := pregen_ok_inv s t pn sched n seed g m h
  obtain ⟨-, hg', hm'⟩ := pregen_ok_inv s' t' pn' sched' n' seed g' m' h'
  refine ⟨?_, ?_, ?_, ?_⟩
  · rw [hg]
    by_cases hmps : s.device = some "mps" <;> simp [hmps, Generator.seed]
  · intro hmps
    rw [hg, hm]
    simp [hmps]
  · intro hmps
    rw [hg, hm]
    simp [hmps]
  · intro hd
    rw [hg, hg', hd]

/-- Witness for C3: two concrete successful `_pregen` calls with the
same device and seed. -/
theorem pregen_seeded_generator_witness :
    Generator.seed (Generator.deviceGen none 9) = 9 ∧
    (demoState.device = some "mps" →
      Generator.deviceGen none 9 = .globalGen 9 ∧ (2 : Int) = 1) ∧
    (demoState.device ≠ some "mps" →
      Generator.deviceGen none 9 = .deviceGen demoState.device 9 ∧ (2 : Int) = pyInt 2) ∧
    (demoState.device = demoState.device →
      Generator.deviceGen none 9 = Generator.deviceGen none 9) :=
  pregen_seeded_generator demoState demoState "text2img" "text2img"
    "DDIMScheduler" "DDIMScheduler" 2 2 9 (.deviceGen none 9) (.deviceGen none 9)
    2 2 demoStateDDIM demoStateDDIM (by rfl) (by rfl)

/-- Inversion of a successful `text2img_generate`: its components come
from a successful `_pregen`, and the call record, metadata dict and
`PngInfo` have exactly the shapes built in the method body. -/
theorem text2imgGenerate_ok_inv (s s1 : X2ImageState) (p np sc : String)
    (hs ws n : Int) (gs : ℚ) (st sd : Int)
    (call : Text2ImgCall) (md : PyVal) (png : PngInfoModel)
    (h : text2imgGenerate s p np sc (hs, ws) n gs st sd = (.ok (call, md, png), s1)) :
    ∃ g m, pregen s "text2img" sc n sd = (.ok (g, m), s1) ∧
      call = { prompt := p, negative_prompt := np, width := ws, height := hs
               num_inference_steps := st, guidance_scale := gs
               num_images_per_prompt := m, generator := g } ∧
      md = PyVal.dict
        [ ("prompt", .str p)
        , ("negative_prompt", .str np)
        , ("scheduler", .str sc)
        , ("image_size", .tuple [.int hs, .int ws])
        , ("num_images", .int m)
        , ("guidance_scale", .float gs)
        , ("steps", .int st)
        , ("seed", .int sd) ] ∧
      png = postgen md "text2img" := by
  unfold text2imgGenerate at h
  cases hp : pregen s "text2img" sc n sd with
  | mk r s2 =>
    cases r with
    | error e =>
      rw [hp] at h
      exact absurd (Prod.mk.injEq _ _ _ _ ▸ h).1 (by simp)
    | ok gm =>
      obtain ⟨g, m⟩ := gm
      rw [hp] at h
      simp only [Prod.mk.injEq, Except.ok.injEq] at h
      obtain ⟨⟨hc, hm, hpng⟩, hs2⟩ := h
      subst hs2
      exact ⟨g, m, rfl, hc.symm, hm.symm, by rw [← hpng, ← hm]⟩

/-- Inversion of a successful `img2img_generate`. -/
theorem img2imgGenerate_ok_inv (s s1 : X2ImageState) (p img : String)
    (strength : ℚ) (np sc : String) (n : Int) (gs : ℚ) (st sd : Int)
    (call : Img2ImgCall) (md : PyVal) (png : PngInfoModel)
    (h : img2imgGenerate s p img strength np sc n gs st sd = (.ok (call, md, png), s1)) :
    ∃ g m, pregen s "img2img" sc n sd = (.ok (g, m), s1) ∧
      call = { prompt := p, image := img, strength := strength
               negative_prompt := np, num_inference_steps := st
               guidance_scale := gs, num_images_per_prompt := m, generator := g } ∧
      md = PyVal.dict
        [ ("prompt", .str p)
        , ("negative_prompt", .str np)
        , ("scheduler", .str sc)
        , ("num_images", .int m)
        , ("guidance_scale", .float gs)
        , ("steps", .int st)
        , ("seed", .int sd) ] ∧
      png = postgen md "img2img" := by
  unfold img2imgGenerate at h
  cases hp : pregen s "img2img" sc n sd with
  | mk r s2 =>
    cases r with
    | error e =>
      rw [hp] at h
      exact absurd (Prod.mk.injEq _ _ _ _ ▸ h).1 (by simp)
    | ok gm =>
      obtain ⟨g, m⟩ := gm
      rw [hp] at h
      simp only [Prod.mk.injEq, Except.ok.injEq] at h
      obtain ⟨⟨hc, hm, hpng⟩, hs2⟩ := h
      subst hs2
      exact ⟨g, m, rfl, hc.symm, hm.symm, by rw [← hpng, ← hm]⟩

/-- C4.  `text2img_generate` passes the configuration through to the
wrapped pipeline call unchanged: prompt and negative prompt verbatim,
`height = image_size[0]`, `width = image_size[1]`, `steps` as
`num_inference_steps`, `guidance_scale` verbatim, the seed via the
generator, and the scheduler name selects (unchanged) the scheduler
class installed on the `text2img` pipeline before the call, instantiated
from its previous configuration. -/
theorem text2img_passthrough (s s1 : X2ImageState) (p np sc : String)
    (hs ws n : Int) (gs : ℚ) (st sd : Int)
    (call : Text2ImgCall) (md : PyVal) (png : PngInfoModel)
    (h : text2imgGenerate s p np sc (hs, ws) n gs st sd = (.ok (call, md, png), s1)) :
    call.prompt = p ∧
    call.negative_prompt = np ∧
    call.height = hs ∧
    call.width = ws ∧
    call.num_inference_steps = st ∧
    call.guidance_scale = gs ∧
    call.generator.seed = sd ∧
    s.compatible_schedulers.lookup sc = some s1.text2img_pipeline.scheduler.cls ∧
    s1.text2img_pipeline.scheduler.config = s.text2img_pipeline.scheduler.config := by
  obtain ⟨g, m, hp, hcall, hmd, hpng⟩ :=
    text2imgGenerate_ok_inv s s1 p np sc hs ws n gs st sd call md png h
  obtain ⟨hset, hg, hm⟩ := pregen_ok_inv s s1 "text2img" sc n sd g m hp
  obtain ⟨cls, hl, hdisj⟩ := setScheduler_ok_inv s s1 "text2img" sc () hset
  rcases hdisj with ⟨-, hs1⟩ | ⟨habs, -⟩
  · subst hs1
    refine ⟨by rw [hcall], by rw [hcall], by rw [hcall], by rw [hcall],
            by rw [hcall], by rw [hcall], ?_, by rw [hl], rfl⟩
    rw [hcall]
    show g.seed = sd
    rw [hg]
    by_cases hmps : s.device = some "mps" <;> simp [hmps, Generator.seed]
  · exact absurd habs (by decide)

/-- The metadata dict `text2img_generate` builds: `image_size` is the
Python tuple `(height, width)`; `m` is the `num_images` value after
`_pregen`. -/
def t2iMetadata (p np sc : String) (hs ws m : Int) (gs : ℚ) (st sd : Int) : PyVal :=
  .dict
    [ ("prompt", .str p)
    , ("negative_prompt", .str np)
    , ("scheduler", .str sc)
    , ("image_size", .tuple [.int hs, .int ws])
    , ("num_images", .int m)
    , ("guidance_scale", .float gs)
    , ("steps", .int st)
    , ("seed", .int sd) ]

/-- What `json.loads` recovers from the serialized `text2img` metadata:
the same dict except that the `image_size` tuple has become a list. -/
def t2iMetadataLoaded (p np sc : String) (hs ws m : Int) (gs : ℚ) (st sd : Int) : PyVal :=
  .dict
    [ ("prompt", .str p)
    , ("negative_prompt", .str np)
    , ("scheduler", .str sc)
    , ("image_size", .list [.int hs, .int ws])
    , ("num_images", .int m)
    , ("guidance_scale", .float gs)
    , ("steps", .int st)
    , ("seed", .int sd) ]

/-- The concrete metadata dict of the C1 counterexample run. -/
def demoT2IMeta : PyVal := t2iMetadata "p" "n" "DDIMScheduler" 512 512 1 7 20 42

/-- The concrete pipeline call record of the C1 counterexample run. -/
def demoT2ICall : Text2ImgCall :=
  { prompt := "p", negative_prompt := "n", width := 512, height := 512
    num_inference_steps := 20, guidance_scale := 7
    num_images_per_prompt := 1, generator := .deviceGen none 42 }

/-- C1, counterexample.  A concrete `text2img_generate` call stores
`json.dumps` of its metadata dict under the `text2img` key, but
`json.loads` of that string is *not* the original dict: the
`image_size` tuple `(512, 512)` comes back as the list `[512, 512]`,
and in Python a tuple never equals a list. -/
theorem metadata_roundtrip_fails :
    (text2imgGenerate demoState "p" "n" "DDIMScheduler" (512, 512) 1 7 20 42).1 =
      .ok (demoT2ICall, demoT2IMeta, { texts := [("text2img", dumps demoT2IMeta)] }) ∧
    loads (dumps demoT2IMeta) ≠ demoT2IMeta := by
  constructor
  · rfl
  · simp [demoT2IMeta, t2iMetadata, dumps, dumpsList, dumpsDict, loads, loadsList, loadsDict]

/-- C1, amended.  Both generate methods store exactly
`json.dumps(metadata)` under the pipeline-name key of the returned
`PngInfo`, and `json.loads` of that chunk recovers the metadata dict
*up to the tuple/list conversion*: exactly for `img2img`, and with
`image_size` turned from the tuple `(h, w)` into the list `[h, w]` for
`text2img`. -/
theorem metadata_roundtrip_amended (s : X2ImageState) (p np sc img : String)
    (strength : ℚ) (hs ws n : Int) (gs : ℚ) (st sd : Int) :
    (∀ call md png s1,
      text2imgGenerate s p np sc (hs, ws) n gs st sd = (.ok (call, md, png), s1) →
      pngLookup png "text2img" = some (dumps md) ∧
      md = t2iMetadata p np sc hs ws call.num_images_per_prompt gs st sd ∧
      loads (dumps md) =
        t2iMetadataLoaded p np sc hs ws call.num_images_per_prompt gs st sd) ∧
    (∀ call md png s1,
      img2imgGenerate s p img strength np sc n gs st sd = (.ok (call, md, png), s1) →
      pngLookup png "img2img" = some (dumps md) ∧
      loads (dumps md) = md) := by
  constructor
  · intro call md png s1 h
    obtain ⟨g, m, hp, hcall, hmd, hpng⟩ :=
      text2imgGenerate_ok_inv s s1 p np sc hs ws n gs st sd call md png h
    have hm : call.num_images_per_prompt = m := by rw [hcall]
    refine ⟨?_, ?_, ?_⟩
    · rw [hpng]
      simp [postgen, pngLookup]
    · rw [hmd, hm]
      rfl
    · rw [hmd, hm]
      simp [t2iMetadata, t2iMetadataLoaded, dumps, dumpsList, dumpsDict,
        loads, loadsList, loadsDict]
  · intro call md png s1 h
    obtain ⟨g, m, hp, hcall, hmd, hpng⟩ :=
      img2imgGenerate_ok_inv s s1 p img strength np sc n gs st sd call md png h
    refine ⟨?_, ?_⟩
    · rw [hpng]
      simp [postgen, pngLookup]
    · rw [hmd]
      simp [dumps, dumpsList, dumpsDict, loads, loadsList, loadsDict]

/-- Witness for the amended C1 at a concrete `text2img_generate` run. -/
theorem metadata_roundtrip_amended_witness :
    pngLookup (postgen demoT2IMeta "text2img") "text2img" = some (dumps demoT2IMeta) ∧
    loads (dumps demoT2IMeta) = t2iMetadataLoaded "p" "n" "DDIMScheduler" 512 512 1 7 20 42 := by
  obtain ⟨h1, hmd, h2⟩ :=
    (metadata_roundtrip_amended demoState "p" "n" "DDIMScheduler" "img" 1
        512 512 1 7 20 42).1
      demoT2ICall demoT2IMeta (postgen demoT2IMeta "text2img") demoStateDDIM (by rfl)
  exact ⟨h1, h2⟩

/-- Warnings accumulated by the `load_embed` loop only grow: a
successful run's warning list extends the list it started from. -/
theorem loadEmbedLoop_warnings_mono (fuel : Nat) :
    ∀ tk token n i ws w tk2 t,
      loadEmbedLoop fuel tk token n i ws = some (w, tk2, t) →
      ∃ rest, w = ws ++ rest := by
  induction fuel with
  | zero =>
    intro tk token n i ws w tk2 t h
    cases n with
    | zero => simp [loadEmbedLoop] at h
    | succ n =>
      simp only [loadEmbedLoop, Option.some.injEq, Prod.mk.injEq] at h
      exact ⟨[], by rw [← h.1, List.append_nil]⟩
  | succ fuel ih =>
    intro tk token n i ws w tk2 t h
    cases n with
    | zero =>
      simp only [loadEmbedLoop] at h
      obtain ⟨rest, hrest⟩ := ih _ _ _ _ _ _ _ _ h
      refine ⟨alreadyContainsMsg token :: rest, ?_⟩
      rw [hrest, List.append_assoc]
      rfl
    | succ n =>
      simp only [loadEmbedLoop, Option.some.injEq, Prod.mk.injEq] at h
      exact ⟨[], by rw [← h.1, List.append_nil]⟩

/-- A token returned by the `load_embed` loop entered from the "already
contained" state was freshly added: it is not in the tokenizer the loop
started from. -/
theorem loadEmbedLoop_result_fresh (fuel : Nat) :
    ∀ tk token i ws w tk2 t,
      loadEmbedLoop fuel tk token 0 i ws = some (w, tk2, t) →
      t ∉ tk := by
  induction fuel with
  | zero =>
    intro tk token i ws w tk2 t h
    simp [loadEmbedLoop] at h
  | succ fuel ih =>
    intro tk token i ws w tk2 t h
    simp only [loadEmbedLoop] at h
    by_cases hmem : (pyDropLast token ++ "-" ++ toString i ++ ">") ∈ tk
    · rw [show addTokens tk (pyDropLast token ++ "-" ++ toString i ++ ">") = (tk, 0) from
        by simp [addTokens, hmem]] at h
      exact ih _ _ _ _ _ _ _ h
    · rw [show addTokens tk (pyDropLast token ++ "-" ++ toString i ++ ">") =
          (tk ++ [pyDropLast token ++ "-" ++ toString i ++ ">"], 1) from
        by simp [addTokens, hmem]] at h
      simp only [loadEmbedLoop, Option.some.injEq, Prod.mk.injEq] at h
      rw [← h.2.2]
      exact hmem

/-- The concrete pipeline call record of the C4 witness run. -/
def demoT2ICallW : Text2ImgCall :=
  { prompt := "p", negative_prompt := "n", width := 768, height := 512
    num_inference_steps := 20, guidance_scale := 7
    num_images_per_prompt := 2, generator := .deviceGen none 42 }

/-- The concrete metadata dict of the C4 witness run. -/
def demoT2IMetaW : PyVal := t2iMetadata "p" "n" "DDIMScheduler" 512 768 2 7 20 42

/-- Witness for C4 at a concrete `text2img_generate` run. -/
theorem text2img_passthrough_witness :
    demoT2ICallW.prompt = "p" ∧
    demoT2ICallW.negative_prompt = "n" ∧
    demoT2ICallW.height = 512 ∧
    demoT2ICallW.width = 768 ∧
    demoT2ICallW.num_inference_steps = 20 ∧
    demoT2ICallW.guidance_scale = 7 ∧
    demoT2ICallW.generator.seed = 42 ∧
    demoState.compatible_schedulers.lookup "DDIMScheduler" =
      some demoStateDDIM.text2img_pipeline.scheduler.cls ∧
    demoStateDDIM.text2img_pipeline.scheduler.config =
      demoState.text2img_pipeline.scheduler.config :=
  text2img_passthrough demoState demoStateDDIM "p" "n" "DDIMScheduler" 512 768 2 7 20 42
    demoT2ICallW demoT2IMetaW (postgen demoT2IMetaW "text2img") (by rfl)

/-- C5, counterexample.  When the tokenizer already contains the passed
token, `load_embed` does not surface an error to the caller: the run
returns normally, having logged a warning and silently renamed the
token to `<tok-1>` (which it then adds and returns).  This is a custom
recovery policy, not a surfaced error. -/
theorem load_embed_duplicate_token_recovers :
    loadEmbed 10 ["<tok>"] (some "<tok>") "x" =
      some ([alreadyContainsMsg "<tok>"], ["<tok>", "<tok-1>"], "<tok-1>") ∧
    "<tok-1>" ≠ "<tok>" := by
  exact ⟨by rfl, by decide⟩

/-- C5, amended.  When the tokenizer already contains the token passed
to `load_embed`, the function logs the "already contains" warning for
that token and retries with renamed tokens (`token[:-1] + "-i>"`,
`i = 1, 2, ...`) until one is added; whenever it returns, it returns a
renamed token that was not in the original tokenizer — the duplicate is
recovered from silently and no error is surfaced to the caller. -/
theorem load_embed_renames_duplicate (fuel : Nat) (tokenizer : List String)
    (token trained : String) (w tk : List String) (t : String)
    (hmem : token ∈ tokenizer)
    (h : loadEmbed fuel tokenizer (some token) trained = some (w, tk, t)) :
    (∃ rest, w = alreadyContainsMsg token :: rest) ∧
    t ∉ tokenizer ∧
    t ≠ token := by
  have hadd : addTokens tokenizer token = (tokenizer, 0) := by
    simp [addTokens, hmem]
  unfold loadEmbed at h
  simp only [] at h
  rw [hadd] at h
  have hfresh := loadEmbedLoop_result_fresh fuel tokenizer token 1 [] w tk t h
  refine ⟨?_, hfresh, fun ht => hfresh (ht ▸ hmem)⟩
  cases fuel with
  | zero => simp [loadEmbedLoop] at h
  | succ fuel =>
    simp only [loadEmbedLoop] at h
    obtain ⟨rest, hrest⟩ := loadEmbedLoop_warnings_mono fuel _ _ _ _ _ _ _ _ h
    exact ⟨rest, by rw [hrest]; rfl⟩

/-- Witness for the amended C5 at the concrete duplicate-token run. -/
theorem load_embed_renames_duplicate_witness :
    "<tok>" ∈ ["<tok>"] ∧ "<tok-1>" ∉ ["<tok>"] ∧ "<tok-1>" ≠ "<tok>" :=
  ⟨by decide,
   (load_embed_renames_duplicate 10 ["<tok>"] "<tok>" "x"
      [alreadyContainsMsg "<tok>"] ["<tok>", "<tok-1>"] "<tok-1>"
      (by decide) (by rfl)).2⟩

/-- Helper: `__post_init__` on an unsupported model class logs the
error, leaves `img2img_pipeline` as `None`, and then crashes on
`self.img2img_pipeline.to(self.device)`. -/
theorem postInit_other (device url tok out : Option String) (loaded : LoadedPipeline)
    (h : loaded.kind = .other) :
    postInit device loaded url tok out =
      (["Model type not supported, img2img pipeline not created"],
       .error (.attributeError "'NoneType' object has no attribute 'to'")) := by
  unfold postInit
  rw [h]

/-- C6.  A construction whose loaded pipeline is neither a
`StableDiffusionPipeline` nor an `AltDiffusionPipeline` logs the
"Model type not supported" error and does not complete normally: no
img2img pipeline is created (`None` takes its place) and
`__post_init__` is left by an exception, never returning a constructed
state. -/
theorem unsupported_model_surfaced (device url tok out : Option String)
    (loaded : LoadedPipeline) (h : loaded.kind = .other) :
    (postInit device loaded url tok out).1 =
      ["Model type not supported, img2img pipeline not created"] ∧
    (postInit device loaded url tok out).2 =
      .error (.attributeError "'NoneType' object has no attribute 'to'") := by
  rw [postInit_other device url tok out loaded h]
  exact ⟨rfl, rfl⟩

/-- Witness for C6 on a concrete unsupported pipeline. -/
theorem unsupported_model_surfaced_witness :
    (postInit none { kind := .other, scheduler := demoSched, compatibles := [] }
        none none none).1 =
      ["Model type not supported, img2img pipeline not created"] ∧
    (postInit none { kind := .other, scheduler := demoSched, compatibles := [] }
        none none none).2 =
      .error (.attributeError "'NoneType' object has no attribute 'to'") :=
  unsupported_model_surfaced none none none none
    { kind := .other, scheduler := demoSched, compatibles := [] } (by rfl)

/-- C8.  Whenever `embeddings_url` and `token_identifier` are both
non-empty strings, `__post_init__` raises an `AttributeError` before
`load_embed` can run: on supported model classes the access to the
never-assigned `self.pipeline` raises, and on unsupported classes the
earlier `None.to(...)` already raised.  Either way embedding loading
never completes through this constructor. -/
theorem embeddings_branch_attribute_crash (device out : Option String)
    (loaded : LoadedPipeline) (url tok : String)
    (hu : 0 < url.length) (ht : 0 < tok.length) :
    (loaded.kind ≠ .other →
      (postInit device loaded (some url) (some tok) out).2 =
        .error (.attributeError "'X2Image' object has no attribute 'pipeline'")) ∧
    (loaded.kind = .other →
      (postInit device loaded (some url) (some tok) out).2 =
        .error (.attributeError "'NoneType' object has no attribute 'to'")) := by
  constructor
  · intro h
    cases hk : loaded.kind with
    | other => exact absurd hk h
    | stableDiffusion =>
      unfold postInit
      rw [hk]
      simp [hu, ht]
    | altDiffusion =>
      unfold postInit
      rw [hk]
      simp [hu, ht]
  · intro h
    rw [postInit_other device (some url) (some tok) out loaded h]

/-- Witness for C8 on a concrete supported pipeline with both fields
non-empty. -/
theorem embeddings_branch_attribute_crash_witness :
    (0 : Nat) < "http://e".length ∧ (0 : Nat) < "<tok>".length ∧
    (demoLoaded.kind ≠ .other →
      (postInit none demoLoaded (some "http://e") (some "<tok>") none).2 =
        .error (.attributeError "'X2Image' object has no attribute 'pipeline'")) :=
  ⟨by decide, by decide,
   (embeddings_branch_attribute_crash none none demoLoaded "http://e" "<tok>"
      (by decide) (by decide)).1⟩

/-- C9, counterexample.  `token_identifier` left at its default `None`
does *not* force a `TypeError`: with `embeddings_url = ""` the guard
`len(self.embeddings_url) > 0` is `False` and Python's `and`
short-circuits, so `len(None)` is never evaluated and construction
completes normally. -/
theorem default_token_identifier_constructs :
    postInit none demoLoaded (some "") none none =
      ([], .ok
        { device := none
          text2img_pipeline := { scheduler := demoSched }
          img2img_pipeline := { scheduler := demoSched }
          compatible_schedulers :=
            [("PNDMScheduler", "PNDMScheduler"), ("DDIMScheduler", "DDIMScheduler")]
          output_path := none }) := by
  rfl

/-- C9, amended.  On a supported model class, `__post_init__` raises
`TypeError` from `len(None)` exactly when `embeddings_url` is `None`,
or when `embeddings_url` is a non-empty string while `token_identifier`
is `None`; with `embeddings_url = ""` the short-circuited guard skips
`token_identifier` entirely and construction succeeds even though
`token_identifier` is still `None`.  So only `embeddings_url` has to be
a string for successful construction. -/
theorem len_none_type_errors (device out : Option String)
    (loaded : LoadedPipeline) (tok? : Option String) (h : loaded.kind ≠ .other) :
    (postInit device loaded none tok? out).2 =
      .error (.typeError "object of type 'NoneType' has no len()") ∧
    (∀ url : String, 0 < url.length →
      (postInit device loaded (some url) none out).2 =
        .error (.typeError "object of type 'NoneType' has no len()")) ∧
    (postInit device loaded (some "") none out).2 =
      .ok { device := device
            text2img_pipeline := { scheduler := loaded.scheduler }
            img2img_pipeline := { scheduler := loaded.scheduler }
            compatible_schedulers := loaded.compatibles.map fun c => (c, c)
            output_path := out } := by
  cases hk : loaded.kind with
  | other => exact absurd hk h
  | stableDiffusion =>
    refine ⟨?_, fun url hu => ?_, ?_⟩ <;>
      · unfold postInit
        rw [hk]
        try simp_all
  | altDiffusion =>
    refine ⟨?_, fun url hu => ?_, ?_⟩ <;>
      · unfold postInit
        rw [hk]
        try simp_all

/-- Witness for the amended C9 at a concrete supported pipeline. -/
theorem len_none_type_errors_witness :
    (postInit none demoLoaded none (some "<t>") none).2 =
      .error (.typeError "object of type 'NoneType' has no len()") ∧
    (postInit none demoLoaded (some "") none none).2 =
      .ok { device := none
            text2img_pipeline := { scheduler := demoLoaded.scheduler }
            img2img_pipeline := { scheduler := demoLoaded.scheduler }
            compatible_schedulers := demoLoaded.compatibles.map fun c => (c, c)
            output_path := none } :=
  ⟨(len_none_type_errors none none demoLoaded (some "<t>") (by decide)).1,
   (len_none_type_errors none none demoLoaded (some "<t>") (by decide)).2.2⟩

/-- `list.pop(list.index(a))` removes exactly the first occurrence of
`a`: erasing at `indexOf` is `erase`. -/
theorem eraseIdx_indexOf_eq_erase (a : String) :
    ∀ l : List String, l.eraseIdx (l.indexOf a) = l.erase a := by
  intro l
  induction l with
  | nil => rfl
  | cons b l ih =>
    by_cases hba : b = a
    · subst hba
      rw [List.indexOf_cons_self, List.eraseIdx_cons_zero, List.erase_cons_head]
    · rw [List.indexOf_cons_ne _ hba, List.eraseIdx_cons_succ,
        List.erase_cons_tail (by simpa using hba), ih]

/-- C10.  The scheduler menu built in `app()` is a permutation of the
keys of `compatible_schedulers`; whenever
`EulerAncestralDiscreteScheduler` is among those keys it is moved to
position 0, the rest keeping their relative order (the remainder is the
keys with the first occurrence of that name erased, a sublist of the
keys). -/
theorem app_scheduler_menu (s : X2ImageState) :
    (appAvailableSchedulers s).Perm (s.compatible_schedulers.map Prod.fst) ∧
    (eulerAName ∈ s.compatible_schedulers.map Prod.fst →
      appAvailableSchedulers s =
        eulerAName :: (s.compatible_schedulers.map Prod.fst).erase eulerAName ∧
      List.Sublist ((s.compatible_schedulers.map Prod.fst).erase eulerAName)
        (s.compatible_schedulers.map Prod.fst)) := by
  by_cases hmem : eulerAName ∈ s.compatible_schedulers.map Prod.fst
  · have hlt : (s.compatible_schedulers.map Prod.fst).indexOf eulerAName <
        (s.compatible_schedulers.map Prod.fst).length :=
      List.indexOf_lt_length.mpr hmem
    have hkey : appAvailableSchedulers s =
        eulerAName :: (s.compatible_schedulers.map Prod.fst).erase eulerAName := by
      unfold appAvailableSchedulers
      rw [if_pos hmem]
      dsimp only
      rw [eraseIdx_indexOf_eq_erase,
        List.getD_eq_getElem _ _ hlt, List.getElem_indexOf hlt]
    rw [hkey]
    exact ⟨(List.perm_cons_erase hmem).symm,
      fun _ => ⟨rfl, List.erase_sublist _ _⟩⟩
  · have hkey : appAvailableSchedulers s = s.compatible_schedulers.map Prod.fst := by
      unfold appAvailableSchedulers
      rw [if_neg hmem]
    rw [hkey]
    exact ⟨List.Perm.refl _, fun hm => absurd hm hmem⟩

/-- A concrete state whose scheduler keys contain
`EulerAncestralDiscreteScheduler` in the middle. -/
def demoStateEuler : X2ImageState :=
  { demoState with compatible_schedulers :=
      [("PNDMScheduler", "PNDMScheduler"),
       ("EulerAncestralDiscreteScheduler", "EulerAncestralDiscreteScheduler"),
       ("DDIMScheduler", "DDIMScheduler")] }

/-- Witness for C10 on a concrete scheduler dict. -/
theorem app_scheduler_menu_witness :
    (appAvailableSchedulers demoStateEuler).Perm
      (demoStateEuler.compatible_schedulers.map Prod.fst) ∧
    appAvailableSchedulers demoStateEuler =
      eulerAName :: (demoStateEuler.compatible_schedulers.map Prod.fst).erase eulerAName :=
  ⟨(app_scheduler_menu demoStateEuler).1,
   ((app_scheduler_menu demoStateEuler).2 (by decide)).1⟩
